import Mathlib

/-!
Shallow embedding of the king-safety scoring engine (src/main.cpp) of the
chessengine repository, and theorems settling the specification's claims
about it.

Squares are modelled as their integer index 0..63 (rank = index / 8,
file = index % 8, exactly as `getRank`/`getFile` compute in the source).
Machine `int` arithmetic stays well inside 32 bits here, so plain `ℤ` is
used with no wrap-around.  C++ `std::optional` access that can throw
`bad_optional_access` is modelled in the `Option` monad: `none` is the
thrown exception.  `double` accumulators are modelled as `ℚ`; the only
divisions performed by the source are exact or C++ integer divisions,
which are modelled with `ℤ` division, so no floating-point rounding is
involved in any claim.
-/

namespace ChessEngine

inductive PieceSymbol where
  | PAWN
  | KNIGHT
  | BISHOP
  | ROOK
  | QUEEN
  | KING
deriving DecidableEq, Repr

inductive Color where
  | WHITE
  | BLACK
deriving DecidableEq, Repr

open PieceSymbol Color

/-- Embeds `getPieceValue` (src/main.cpp lines 6-16): the fixed piece-value
map. -/
def getPieceValue : PieceSymbol → ℤ
  | PAWN => 1
  | BISHOP => 3
  | KNIGHT => 3
  | QUEEN => 9
  | ROOK => 5
  | KING => 200

/-- Embeds `getRank` (src/main.cpp lines 18-20): integer division of the
square index by 8. -/
def getRank (sq : ℕ) : ℤ := (sq : ℤ) / 8

/-- Embeds `getFile` (src/main.cpp lines 22-24): the square index modulo 8. -/
def getFile (sq : ℕ) : ℤ := (sq : ℤ) % 8

/-- Embeds `createSquare` (src/main.cpp lines 26-31): bounds-checked square
construction; `none` models the returned `std::nullopt` (the spec's
`InvalidSquare` failure). -/
def createSquare (rank file : ℤ) : Option ℕ :=
  if 0 ≤ rank ∧ rank < 8 ∧ 0 ≤ file ∧ file < 8 then
    some (rank * 8 + file).toNat
  else
    none

/-- Embeds `getSurroundingSquares` (src/main.cpp lines 33-51): the eight
rank/file offsets in source order, keeping those `createSquare` accepts. -/
def getSurroundingSquares (sq : ℕ) : List ℕ :=
  let rank := getRank sq
  let file := getFile sq
  let offsets : List (ℤ × ℤ) :=
    [(-1, -1), (-1, 0), (-1, 1), (0, -1), (0, 1), (1, -1), (1, 0), (1, 1)]
  offsets.filterMap fun off => createSquare (rank + off.1) (file + off.2)

/-- Corner squares of the board: rank and file both extremal. -/
def isCornerSquare (sq : ℕ) : Prop :=
  (getRank sq = 0 ∨ getRank sq = 7) ∧ (getFile sq = 0 ∨ getFile sq = 7)

instance (sq : ℕ) : Decidable (isCornerSquare sq) := by
  unfold isCornerSquare; infer_instance

/-- Edge squares of the board: rank or file extremal. -/
def isEdgeSquare (sq : ℕ) : Prop :=
  getRank sq = 0 ∨ getRank sq = 7 ∨ getFile sq = 0 ∨ getFile sq = 7

instance (sq : ℕ) : Decidable (isEdgeSquare sq) := by
  unfold isEdgeSquare; infer_instance

/-- One board entry as the external engine's `board()` yields it: an optional
(square, piece kind, color) triple. -/
abbrev BoardEntry := Option (ℕ × PieceSymbol × Color)

/-- Snapshot of the external rules engine (the `Chess` collaborator of
chesscpp) as the source consumes it: the board grid and the query methods
`isAttacked`, `getAttackingPieces`, `moves` and `turn`, modelled as fields
of the frozen snapshot. -/
structure Chess where
  boardRows : List (List BoardEntry)
  isAttacked : ℕ → Color → Bool
  getAttackingPieces : Color → ℕ → List (Option PieceSymbol)
  moves : String → PieceSymbol → List String
  turn : Color

/-- Embeds `pieceOnSquare` (src/main.cpp lines 54-63): scan the board grid
row by row and return the piece and color of the first entry sitting on the
requested square. -/
def pieceOnSquare (game : Chess) (sq : ℕ) : Option (PieceSymbol × Color) :=
  game.boardRows.findSome? fun row =>
    row.findSome? fun p =>
      match p with
      | none => none
      | some (s, pk, c) => if s = sq then some (pk, c) else none

/-- Modelled from the spec: `squareToString`, the algebraic-notation
conversion the external rules engine provides (spec §6, "Convert between
square values and algebraic-notation strings"); its code is not in the
repository.  A square becomes its file letter followed by its rank digit,
e.g. index 4 becomes "e1". -/
def squareToString (sq : ℕ) : String :=
  String.mk [Char.ofNat (97 + sq % 8), Char.ofNat (49 + sq / 8)]

/-- Modelled from the spec: `stringToSquare`, the inverse algebraic-notation
conversion of the external rules engine (spec §6); its code is not in the
repository.  Only a two-character file-letter/rank-digit string within the
board names a square; any other string names none. -/
def stringToSquare (s : String) : Option ℕ :=
  match s.data with
  | [cf, cr] => createSquare ((cr.toNat : ℤ) - 49) ((cf.toNat : ℤ) - 97)
  | _ => none

/-- Embeds `evaluatePawnShield` (src/main.cpp lines 65-80).  The source
builds the three "shield square" names by integer character arithmetic on
the algebraic string of the king square (`std::to_string(strKingPos[1] +
direction)` concatenated with `std::to_string(strKingPos[0] ± 1)`), then
counts the named squares holding a (PAWN, WHITE) pair — WHITE regardless of
the evaluated side.  A built name that names no square (the usual case: the
names are decimal numerals such as "50100") holds no piece and counts 0. -/
def evaluatePawnShield (game : Chess) (kingPos : ℕ) (isWhite : Bool) : ℤ :=
  let direction : ℤ := if isWhite then 1 else -1
  let strKingPos := squareToString kingPos
  let ch0 : ℤ := ((strKingPos.data.getD 0 'a').toNat : ℤ)
  let ch1 : ℤ := ((strKingPos.data.getD 1 'a').toNat : ℤ)
  let shieldSquares : List (Option ℕ) :=
    [stringToSquare (toString (ch1 + direction) ++ toString (ch0 - 1)),
     stringToSquare (toString (ch1 + direction) ++ toString ch0),
     stringToSquare (toString (ch1 + direction) ++ toString (ch0 + 1))]
  shieldSquares.foldl
    (fun shieldBonus osq =>
      if osq.bind (pieceOnSquare game) = some (PAWN, WHITE) then shieldBonus + 1
      else shieldBonus)
    0

/-- Follows the spec's words (§4.3), for comparison with the source's
`evaluatePawnShield`: the three squares one rank toward the opponent at
file−1, file, file+1, bounds-checked and skipped when off-board, counting
those occupied by a pawn of the evaluated side. -/
def evaluatePawnShieldSpec (game : Chess) (kingPos : ℕ) (isWhite : Bool) : ℤ :=
  let direction : ℤ := if isWhite then 1 else -1
  let rank := getRank kingPos
  let file := getFile kingPos
  let friendly := if isWhite then WHITE else BLACK
  let shieldSquares : List ℕ :=
    [file - 1, file, file + 1].filterMap fun f => createSquare (rank + direction) f
  shieldSquares.foldl
    (fun shieldBonus sq =>
      if pieceOnSquare game sq = some (PAWN, friendly) then shieldBonus + 1
      else shieldBonus)
    0

/-- Embeds `evaluateEnemyAttacks` (src/main.cpp lines 82-97).  Per neighbor
square of the king: skip it when the engine reports no attackers (or a
leading null sentinel); otherwise, for every reported attacker, when the
square is attacked, add `getPieceValue(attacker) / 10` — a C++ `int`
division.  Accessing a null attacker's value throws, modelled as `none`. -/
def evaluateEnemyAttacks (game : Chess) (kingPos : ℕ) (isWhite : Bool) : Option ℚ :=
  let safetyZone := getSurroundingSquares kingPos
  let opponentSide := if isWhite then BLACK else WHITE
  safetyZone.foldlM
    (fun attackScore sq =>
      let attackingPieces := game.getAttackingPieces opponentSide sq
      if attackingPieces.isEmpty ∨ attackingPieces.head? = some none then
        some attackScore
      else
        attackingPieces.foldlM
          (fun acc attacker =>
            if game.isAttacked sq opponentSide then
              match attacker with
              | none => none
              | some p => some (acc + ((getPieceValue p / 10 : ℤ) : ℚ))
            else some acc)
          attackScore)
    (0 : ℚ)

/-- Loop body of `evaluateExposedKing` (src/main.cpp lines 107-111): the
unguarded `pieceOnSquare(...).value()` throws on an empty square (`none`);
otherwise the square counts when its piece is not of the evaluated side's
color or the square is attacked by the opponent. -/
def exposedKingStep (game : Chess) (currentColor opponentSide : Color)
    (exposedPenalty : ℤ) (sq : ℕ) : Option ℤ :=
  match pieceOnSquare game sq with
  | none => none
  | some pc =>
    let isPieceOpponent : Bool := pc.2 != currentColor
    let isSquareAttacked : Bool := game.isAttacked sq opponentSide
    some (if isPieceOpponent || isSquareAttacked then exposedPenalty + 1
          else exposedPenalty)

/-- Embeds `evaluateExposedKing` (src/main.cpp lines 99-114): fold
`exposedKingStep` over the neighbor squares of the king, starting from 0;
the first thrown `bad_optional_access` (`none`) aborts the evaluation. -/
def evaluateExposedKing (game : Chess) (kingPos : ℕ) (isWhite : Bool) : Option ℤ :=
  let squaresAroundKing := getSurroundingSquares kingPos
  let currentColor := if isWhite then WHITE else BLACK
  let opponentSide := if currentColor = WHITE then BLACK else WHITE
  squaresAroundKing.foldlM (exposedKingStep game currentColor opponentSide) (0 : ℤ)

/-- Embeds `evaluateKingMobility` (src/main.cpp lines 116-118): the number
of moves the engine lists for the piece standing on the king square; the
unguarded `.value()` on an empty square throws, modelled as `none`. -/
def evaluateKingMobility (game : Chess) (kingPos : ℕ) : Option ℤ :=
  match pieceOnSquare game kingPos with
  | none => none
  | some pc => some ((game.moves (squareToString kingPos) pc.1).length : ℤ)

def pawnShieldWeight : ℚ := 1.0

def exposedKingWeight : ℚ := -0.5

def enemyAttacksWeight : ℚ := -0.2

def kingPositioningWeight : ℚ := -0.8

def openFilesWeight : ℚ := -1.0

def mobilityWeight : ℚ := 0.1

/-- The aggregator's side selection (src/main.cpp line 125): the evaluated
side is white exactly when it is white's turn. -/
def sideIsWhite (game : Chess) : Bool := game.turn == WHITE

/-- Embeds the king-scan loop of `evaluateKingSafety` (src/main.cpp lines
137-144) over one row: the first entry holding a king of the evaluated side
(the `break` leaves only the row loop). -/
def rowKingSquare (row : List BoardEntry) (isWhite : Bool) : Option ℕ :=
  row.findSome? fun p =>
    match p with
    | none => none
    | some (s, pk, c) =>
      if pk = KING ∧ ((c = WHITE ∧ isWhite = true) ∨ (c = BLACK ∧ isWhite = false)) then
        some s
      else none

/-- Embeds the whole king scan of `evaluateKingSafety`: `kingPosition`
starts as the uninitialized `square` variable — modelled by the explicit
`kingInit` parameter — and each row holding a matching king overwrites it. -/
def findKingLoop (game : Chess) (isWhite : Bool) (kingInit : ℕ) : ℕ :=
  game.boardRows.foldl (fun acc row => (rowKingSquare row isWhite).getD acc) kingInit

/-- Embeds `evaluateKingSafety` (src/main.cpp lines 124-156).  The two
heuristics the source calls but never defines anywhere in the repository
(`evaluatePositioning`, `evaluateOpenFiles`) are parameters, constrained
only as the spec's minimum contract states (§4.7: pure functions of the
board, king square and side returning a real number).  `kingInit` models
the indeterminate value of the uninitialized `square kingPosition;` read
when no king of the evaluated side is on the board.  A heuristic's thrown
exception (`none`) propagates in source statement order. -/
def evaluateKingSafety (evaluatePositioning evaluateOpenFiles : Chess → ℕ → Bool → ℚ)
    (kingInit : ℕ) (game : Chess) : Option ℚ :=
  let isWhite := sideIsWhite game
  let kingPosition := findKingLoop game isWhite kingInit
  do
    let shield := evaluatePawnShield game kingPosition isWhite
    let exposed ← evaluateExposedKing game kingPosition isWhite
    let attacks ← evaluateEnemyAttacks game kingPosition isWhite
    let positioning := evaluatePositioning game kingPosition isWhite
    let mobility ← evaluateKingMobility game kingPosition
    let openFiles := evaluateOpenFiles game kingPosition isWhite
    pure (pawnShieldWeight * (shield : ℚ) + exposedKingWeight * (exposed : ℚ)
      + enemyAttacksWeight * attacks + kingPositioningWeight * positioning
      + mobilityWeight * (mobility : ℚ) + openFilesWeight * openFiles)

/-- Modelled from the spec: `kingSquare(side)` of the BoardQueryAdapter
(spec §4.2), whose code is not in the repository; `none` is the
`KingNotFound` failure raised when no king of the side is on the board. -/
def kingSquareSpec (game : Chess) (side : Color) : Option ℕ :=
  game.boardRows.findSome? fun row =>
    row.findSome? fun p =>
      match p with
      | none => none
      | some (s, pk, c) => if pk = KING ∧ c = side then some s else none

/-- Attack oracle that reports no square attacked. -/
def noAttacks : ℕ → Color → Bool := fun _ _ => false

/-- Attacker oracle that reports no attackers anywhere. -/
def noAttackers : Color → ℕ → List (Option PieceSymbol) := fun _ _ => []

/-- Move oracle that lists no legal moves. -/
def noMoves : String → PieceSymbol → List String := fun _ _ => []

/-- Concrete snapshot: the start-position king shield — white king on e1
(index 4), white pawns on d2/e2/f2 (11, 12, 13), black king on e8 (60),
nothing attacked, white to move. -/
def startShieldGame : Chess :=
  { boardRows := [[some (4, KING, WHITE), some (11, PAWN, WHITE), some (12, PAWN, WHITE),
      some (13, PAWN, WHITE), some (60, KING, BLACK)]],
    isAttacked := noAttacks,
    getAttackingPieces := noAttackers,
    moves := noMoves,
    turn := WHITE }

/-- Concrete snapshot: the two kings alone — white king on e1 (index 4),
black king on e8 (60); every neighbor square of the white king is empty. -/
def loneKingsGame : Chess :=
  { boardRows := [[some (4, KING, WHITE), some (60, KING, BLACK)]],
    isAttacked := noAttacks,
    getAttackingPieces := noAttackers,
    moves := noMoves,
    turn := WHITE }

/-- Concrete snapshot: white king on e1 (index 4) with a black pawn
attacking its neighbor e2 (12) and a black queen attacking its neighbor d2
(11), as the engine's oracles report. -/
def pawnAttackGame : Chess :=
  { boardRows := [[some (4, KING, WHITE), some (60, KING, BLACK)]],
    isAttacked := fun sq side => (sq == 11 || sq == 12) && side == BLACK,
    getAttackingPieces := fun side sq =>
      if side = BLACK ∧ sq = 12 then [some PAWN]
      else if side = BLACK ∧ sq = 11 then [some QUEEN]
      else [],
    moves := noMoves,
    turn := WHITE }

/-- Concrete snapshot with no king at all: white pawns on a1, b1, a2, b2
(indices 0, 1, 8, 9), white to move. -/
def kinglessGame : Chess :=
  { boardRows := [[some (0, PAWN, WHITE), some (1, PAWN, WHITE), some (8, PAWN, WHITE),
      some (9, PAWN, WHITE)]],
    isAttacked := noAttacks,
    getAttackingPieces := noAttackers,
    moves := noMoves,
    turn := WHITE }

/-- Concrete snapshot on which every heuristic succeeds: the white king on
e1 (index 4) with white pawns on all five of its neighbor squares d1, f1,
d2, e2, f2 (3, 5, 11, 12, 13), white to move. -/
def smallKingGame : Chess :=
  { boardRows := [[some (4, KING, WHITE), some (3, PAWN, WHITE), some (5, PAWN, WHITE),
      some (11, PAWN, WHITE), some (12, PAWN, WHITE), some (13, PAWN, WHITE)]],
    isAttacked := noAttacks,
    getAttackingPieces := noAttackers,
    moves := noMoves,
    turn := WHITE }

/-- C6: for every square index in [0,63], `getSurroundingSquares` returns only
in-range squares at rank/file offsets of at most one (and distinct from the
square itself), and returns exactly 3 of them on a corner square, 5 on a
non-corner edge square, and 8 on an interior square. -/
theorem getSurroundingSquares_spec :
    ∀ sq : Fin 64,
      (∀ t ∈ getSurroundingSquares sq.val,
        t < 64 ∧ t ≠ sq.val ∧
        (getRank t - getRank sq.val = -1 ∨ getRank t - getRank sq.val = 0 ∨
          getRank t - getRank sq.val = 1) ∧
        (getFile t - getFile sq.val = -1 ∨ getFile t - getFile sq.val = 0 ∨
          getFile t - getFile sq.val = 1)) ∧
      (getSurroundingSquares sq.val).length =
        (if isCornerSquare sq.val then 3 else if isEdgeSquare sq.val then 5 else 8) := by
  decide

/-- C7: square construction fails exactly when rank or file is outside [0,7],
and on in-range input returns the square with index rank*8+file. -/
theorem createSquare_spec :
    ∀ rank file : ℤ,
      (createSquare rank file = none ↔
        (rank < 0 ∨ 8 ≤ rank ∨ file < 0 ∨ 8 ≤ file)) ∧
      (∀ n : ℕ, createSquare rank file = some n → (n : ℤ) = rank * 8 + file) := by
  intro rank file
  unfold createSquare
  constructor
  · split
    · rename_i h
      simp only [iff_false_intro (Option.some_ne_none _), false_iff]
      omega
    · rename_i h
      simp only [true_iff]
      omega
  · intro n hn
    split at hn
    · rename_i h
      simp only [Option.some.injEq] at hn
      omega
    · exact absurd hn (by simp)

/-- C10: rank/file decomposition and square construction are mutually
inverse on the board: rebuilding a square from its rank and file gives the
square back, and the rank and file of a freshly built square are the given
coordinates. -/
theorem createSquare_getRank_getFile_inverse :
    (∀ sq : Fin 64, createSquare (getRank sq.val) (getFile sq.val) = some sq.val) ∧
    (∀ rank file : Fin 8,
      (createSquare (rank.val : ℤ) (file.val : ℤ)).map getRank = some (rank.val : ℤ) ∧
      (createSquare (rank.val : ℤ) (file.val : ℤ)).map getFile = some (file.val : ℤ)) := by
  decide

/-- General shape of the aggregator: whenever the three fallible heuristics
succeed, `evaluateKingSafety` is the weighted sum of the six heuristic
results, with the source's weights.  Shared by several claim proofs. -/
theorem evaluateKingSafety_eq
    (evaluatePositioning evaluateOpenFiles : Chess → ℕ → Bool → ℚ)
    (kingInit : ℕ) (game : Chess) (exposed mobility : ℤ) (attacks : ℚ)
    (hExposed : evaluateExposedKing game (findKingLoop game (sideIsWhite game) kingInit)
      (sideIsWhite game) = some exposed)
    (hAttacks : evaluateEnemyAttacks game (findKingLoop game (sideIsWhite game) kingInit)
      (sideIsWhite game) = some attacks)
    (hMobility : evaluateKingMobility game (findKingLoop game (sideIsWhite game) kingInit)
      = some mobility) :
    evaluateKingSafety evaluatePositioning evaluateOpenFiles kingInit game =
      some (1.0 * ((evaluatePawnShield game (findKingLoop game (sideIsWhite game) kingInit)
          (sideIsWhite game) : ℤ) : ℚ)
        + (-0.5) * ((exposed : ℤ) : ℚ) + (-0.2) * attacks
        + (-0.8) * evaluatePositioning game (findKingLoop game (sideIsWhite game) kingInit)
          (sideIsWhite game)
        + 0.1 * ((mobility : ℤ) : ℚ)
        + (-1.0) * evaluateOpenFiles game (findKingLoop game (sideIsWhite game) kingInit)
          (sideIsWhite game)) := by
  simp only [evaluateKingSafety, hExposed, hAttacks, hMobility, Option.bind_eq_bind,
    Option.bind_some, pawnShieldWeight, exposedKingWeight, enemyAttacksWeight,
    kingPositioningWeight, openFilesWeight, mobilityWeight]
  rfl

/-- The exposed-king fold fails exactly when some listed square is
unoccupied, whatever the accumulator: the loop body's unguarded optional
access is the only failure point. -/
theorem exposed_foldlM_none_iff (game : Chess) (cc op : Color) :
    ∀ (l : List ℕ) (acc : ℤ),
      l.foldlM (exposedKingStep game cc op) acc = none ↔
        ∃ sq ∈ l, pieceOnSquare game sq = none := by
  intro l
  induction l with
  | nil => intro acc; simp [List.foldlM]
  | cons x xs ih =>
    intro acc
    cases h : pieceOnSquare game x with
    | none =>
      simp only [List.foldlM_cons, exposedKingStep, h, Option.bind_eq_bind, Option.none_bind]
      exact iff_of_true trivial ⟨x, List.mem_cons_self x xs, h⟩
    | some pc =>
      simp only [List.foldlM_cons, exposedKingStep, h, Option.bind_eq_bind, Option.some_bind,
        List.mem_cons]
      rw [ih]
      constructor
      · rintro ⟨sq, hsq, hnone⟩
        exact ⟨sq, Or.inr hsq, hnone⟩
      · rintro ⟨sq, hsq | hsq, hnone⟩
        · rw [hsq] at hnone; rw [hnone] at h; exact absurd h (by simp)
        · exact ⟨sq, hsq, hnone⟩

/-- C1: whenever its fallible sub-heuristics succeed, `evaluateKingSafety`
invokes each of the six heuristics exactly once on the snapshot, the king
square it resolved and the evaluated side, and returns exactly
1.0·pawnShield − 0.5·exposedKing − 0.2·enemyAttacks − 0.8·kingPositioning
+ 0.1·mobility − 1.0·openFiles, with no other term.  The two heuristics the
source never defines enter as the parameters `evaluatePositioning` and
`evaluateOpenFiles`. -/
theorem evaluateKingSafety_weighted_sum
    (evaluatePositioning evaluateOpenFiles : Chess → ℕ → Bool → ℚ)
    (kingInit : ℕ) (game : Chess) (exposed mobility : ℤ) (attacks : ℚ)
    (hExposed : evaluateExposedKing game (findKingLoop game (sideIsWhite game) kingInit)
      (sideIsWhite game) = some exposed)
    (hAttacks : evaluateEnemyAttacks game (findKingLoop game (sideIsWhite game) kingInit)
      (sideIsWhite game) = some attacks)
    (hMobility : evaluateKingMobility game (findKingLoop game (sideIsWhite game) kingInit)
      = some mobility) :
    evaluateKingSafety evaluatePositioning evaluateOpenFiles kingInit game =
      some (1.0 * ((evaluatePawnShield game (findKingLoop game (sideIsWhite game) kingInit)
          (sideIsWhite game) : ℤ) : ℚ)
        + (-0.5) * ((exposed : ℤ) : ℚ) + (-0.2) * attacks
        + (-0.8) * evaluatePositioning game (findKingLoop game (sideIsWhite game) kingInit)
          (sideIsWhite game)
        + 0.1 * ((mobility : ℤ) : ℚ)
        + (-1.0) * evaluateOpenFiles game (findKingLoop game (sideIsWhite game) kingInit)
          (sideIsWhite game)) :=
  evaluateKingSafety_eq evaluatePositioning evaluateOpenFiles kingInit game exposed mobility
    attacks hExposed hAttacks hMobility

/-- Witness for C1 at `smallKingGame` with both undefined heuristics set to
the zero function. -/
theorem evaluateKingSafety_weighted_sum_witness :
    evaluateKingSafety (fun _ _ _ => 0) (fun _ _ _ => 0) 0 smallKingGame =
      some (1.0 * ((evaluatePawnShield smallKingGame (findKingLoop smallKingGame
          (sideIsWhite smallKingGame) 0) (sideIsWhite smallKingGame) : ℤ) : ℚ)
        + (-0.5) * ((0 : ℤ) : ℚ) + (-0.2) * (0 : ℚ)
        + (-0.8) * (0 : ℚ) + 0.1 * ((0 : ℤ) : ℚ) + (-1.0) * (0 : ℚ)) :=
  evaluateKingSafety_weighted_sum (fun _ _ _ => 0) (fun _ _ _ => 0) 0 smallKingGame 0 0 0
    (by decide) (by rfl) (by decide)

/-- C2: the source's pawn-shield heuristic does not examine the three squares
one rank toward the opponent.  On the start-position shield (white king e1,
white pawns d2/e2/f2) its character-arithmetic square names ("50100",
"50101", "50102") name no square, so it returns 0, while the specified
count of friendly shield pawns is 3. -/
theorem evaluatePawnShield_wrong_squares :
    evaluatePawnShield startShieldGame 4 true = 0 ∧
    evaluatePawnShieldSpec startShieldGame 4 true = 3 := by
  decide

/-- C3: the source divides piece values by 10 in integer arithmetic, so a
pawn attacking a neighbor square of the king contributes 1 / 10 = 0 (and a
queen 9 / 10 = 0) instead of the claimed 0.1 and 0.9: on a snapshot whose
oracles report a black pawn attacking e2 and a black queen attacking d2,
the heuristic returns 0, though the claimed per-pawn contribution
pieceValue/10 in exact arithmetic is 1/10. -/
theorem evaluateEnemyAttacks_integer_division :
    evaluateEnemyAttacks pawnAttackGame 4 true = some 0 ∧
    (getPieceValue PAWN : ℚ) / 10 = 1 / 10 ∧
    ((getPieceValue PAWN / 10 : ℤ) : ℚ) = 0 := by
  refine ⟨?_, by norm_num [getPieceValue], by norm_num [getPieceValue]⟩
  norm_num [evaluateEnemyAttacks, pawnAttackGame, getSurroundingSquares, getRank, getFile,
    createSquare, getPieceValue, List.foldlM, List.filterMap]

/-- C4: on a kingless snapshot the aggregator does not fail with
KingNotFound: the spec-modelled `kingSquare` lookup reports the king absent,
yet the source's `evaluateKingSafety` — reading its uninitialized
`kingPosition`, modelled by the initial value 0 — returns the numeric score
0 (with the two undefined heuristics set to the zero function). -/
theorem evaluateKingSafety_kingless_returns_score :
    kingSquareSpec kinglessGame WHITE = none ∧
    evaluateKingSafety (fun _ _ _ => 0) (fun _ _ _ => 0) 0 kinglessGame = some 0 := by
  refine ⟨by decide, ?_⟩
  rw [evaluateKingSafety_eq (fun _ _ _ => 0) (fun _ _ _ => 0) 0 kinglessGame 0 0 0
    (by decide) (by rfl) (by decide)]
  have hps : evaluatePawnShield kinglessGame
      (findKingLoop kinglessGame (sideIsWhite kinglessGame) 0)
      (sideIsWhite kinglessGame) = 0 := by decide
  rw [hps]
  norm_num

/-- C5: the exposed-king heuristic does not return a count on every
snapshot: with the two kings alone on the board (white king e1), the
unguarded optional access on the first empty neighbor square throws —
modelled as `none` — instead of producing the specified count 0. -/
theorem evaluateExposedKing_throws_on_empty_neighbor :
    evaluateExposedKing loneKingsGame 4 true = none := by
  decide

/-- C8: the evaluation is a deterministic function of the snapshot: two
invocations of `evaluateKingSafety` on equal immutable snapshots (with the
same weight table, heuristics and initial square) yield identical results. -/
theorem evaluateKingSafety_deterministic
    (evaluatePositioning evaluateOpenFiles : Chess → ℕ → Bool → ℚ)
    (kingInit : ℕ) (game1 game2 : Chess) (h : game1 = game2) :
    evaluateKingSafety evaluatePositioning evaluateOpenFiles kingInit game1 =
      evaluateKingSafety evaluatePositioning evaluateOpenFiles kingInit game2 := by
  rw [h]

/-- Witness for C8: two calls on the `loneKingsGame` snapshot agree. -/
theorem evaluateKingSafety_deterministic_witness :
    evaluateKingSafety (fun _ _ _ => 0) (fun _ _ _ => 0) 0 loneKingsGame =
      evaluateKingSafety (fun _ _ _ => 0) (fun _ _ _ => 0) 0 loneKingsGame :=
  evaluateKingSafety_deterministic (fun _ _ _ => 0) (fun _ _ _ => 0) 0 loneKingsGame
    loneKingsGame rfl

/-- C9: the exposed-king heuristic fails (takes the error branch of the
unguarded optional access) exactly when at least one neighbor square of the
king is unoccupied; it returns a value only when every neighbor square is
occupied by some piece. -/
theorem evaluateExposedKing_none_iff (game : Chess) (kingPos : ℕ) (isWhite : Bool) :
    evaluateExposedKing game kingPos isWhite = none ↔
      ∃ sq ∈ getSurroundingSquares kingPos, pieceOnSquare game sq = none := by
  unfold evaluateExposedKing
  exact exposed_foldlM_none_iff game _ _ (getSurroundingSquares kingPos) 0

end ChessEngine
